import Mathlib

/-!
Verification of the event-orchestration and metrics-aggregation core of the
`powertop` terminal dashboard, as a shallow embedding in Lean 4.

Conventions of the embedding:
- `u64` / `u32` counters are modelled as `Nat` (the claims under study never
  reach the wrap-around range; `u64` subtraction only occurs under a
  `free ≤ total` hypothesis that rules out underflow).
- `f64` values that only store, compare (`f64::max`) or shift small integers
  are modelled as `ℚ`: all those operations are exact in IEEE double
  precision for the magnitudes involved.
- The one place where genuine floating-point behaviour matters — the
  division in `MemoryData::usage_percentages`, which can be `0.0 / 0.0` — is
  modelled by the type `F` below, which is `ℚ` extended with `nan` and
  `inf` so that division by zero is represented faithfully instead of being
  collapsed to `0` (as bare `ℚ` division would do).  Rounding of a proper
  division is not modelled; for range statements this is sound because
  correctly-rounded division of `a ≤ b` by `b` lands in `[0,1]`, whose
  endpoints are representable, and multiplication by the representable
  constant `100` then lands in `[0,100]`.
- `VecDeque` becomes `List` (front = oldest, `push_back` = append).
- `HashMap<String, _>` becomes an association list with the same
  `contains_key` / `get_mut` / `insert` access pattern; keys stay unique.
- Async loop bodies become one-iteration step functions over an explicit
  "channel still open / cancellation requested" environment, returning a
  `StepResult` that records whether the iteration continues, breaks out of
  the loop, or panics, together with the events it enqueued.
-/

namespace Powertop

/-! ## Floating-point carrier for the memory percentages -/

/-- A `f64` value as it arises in `MemoryData::usage_percentages`: either a
finite exact value, positive infinity, or NaN. -/
inductive F where
  | num (q : ℚ)
  | inf
  | nan
deriving DecidableEq

/-- IEEE division of two finite nonnegative `f64` values (the operands in
`usage_percentages` are casts of `u64`): `0/0` is NaN, `a/0` with `a ≠ 0` is
`+inf`, otherwise the exact quotient. -/
def f64Div (a b : ℚ) : F :=
  if b = 0 then (if a = 0 then F.nan else F.inf) else F.num (a / b)

/-- Multiplication of an `F` value by a positive finite constant (here `100.0`):
NaN and infinity propagate. -/
def F.mulConst (x : F) (c : ℚ) : F :=
  match x with
  | F.num q => F.num (q * c)
  | F.inf => F.inf
  | F.nan => F.nan

/-! ## src/data_services/memory.rs -/

/-- `MemoryData` from `src/data_services/memory.rs` (amounts in bytes). -/
structure MemoryData where
  free_ram : ℕ
  total_ram : ℕ
  free_swap : ℕ
  total_swap : ℕ
deriving DecidableEq

/-- `MemoryData::usage_percentages`: `used = total - free` (u64 subtraction,
modelled by truncated `Nat` subtraction), then `used as f64 / total as f64 * 100.0`
for RAM and swap.  There is no guard against `total = 0`. -/
def MemoryData.usage_percentages (m : MemoryData) : F × F :=
  let used_ram : ℕ := m.total_ram - m.free_ram
  let ram_usage := (f64Div used_ram m.total_ram).mulConst 100
  let used_swap : ℕ := m.total_swap - m.free_swap
  let swap_usage := (f64Div used_swap m.total_swap).mulConst 100
  (ram_usage, swap_usage)

/-! ## The sliding-window push of src/tui/components/memory.rs

`MemoryComponent::update_data_stats` does, for each of the two windows:
if `len == WINDOW_SIZE` then `pop_front` and decrement every retained `x`
by `1.0`; then `push_back((len as f64, value))`.  The value type is kept a
parameter: the push logic never inspects it. -/

/-- One push into a position/value window with capacity `cap`, exactly as in
`MemoryComponent::update_data_stats`. -/
def windowPush {α : Type} (cap : ℕ) (w : List (ℚ × α)) (v : α) : List (ℚ × α) :=
  let w1 := if w.length = cap then w.tail.map (fun p => (p.1 - 1, p.2)) else w
  w1 ++ [((w1.length : ℚ), v)]

/-- `MemoryComponent::WINDOW_SIZE`. -/
def WINDOW_SIZE : ℕ := 10

/-- `MemoryViewModel` from `src/tui/components/memory.rs`. -/
structure MemoryViewModel where
  available_ram : List (ℚ × F)
  available_swap : List (ℚ × F)
  total_ram : ℕ
  total_swap : ℕ

/-- `MemoryComponent::update_data_stats`: store the new totals, then push the
two percentages from `usage_percentages` into the two windows. -/
def MemoryViewModel.update_data_stats (vm : MemoryViewModel) (new_data : MemoryData) :
    MemoryViewModel :=
  let p := new_data.usage_percentages
  { total_ram := new_data.total_ram
    total_swap := new_data.total_swap
    available_ram := windowPush WINDOW_SIZE vm.available_ram p.1
    available_swap := windowPush WINDOW_SIZE vm.available_swap p.2 }

/-! ## src/data_services/cpu.rs and src/tui/components/cpu.rs -/

/-- `CpuData` from `src/data_services/cpu.rs` (`cpu_usage` is a cast of the
provider's `f32` percentage). -/
structure CpuData where
  cpu_name : String
  vendor_id : String
  brand : String
  cpu_usage : ℚ
deriving DecidableEq

/-- `MAX_DATA_POINTS` from `src/tui/components/cpu.rs`. -/
def MAX_DATA_POINTS : ℕ := 50

/-- `CpuStats` from `src/tui/components/cpu.rs`; `cpu_groups` is the
`HashMap<String, VecDeque<(f64, f64)>>` as an association list. -/
structure CpuStats where
  max_usage : ℚ
  min_x : ℚ
  max_x : ℚ
  cpu_groups : List (String × List (ℚ × ℚ))
  points : ℕ

/-- `HashMap::get` / `contains_key` on the association list. -/
def lookupGroup (gs : List (String × List (ℚ × ℚ))) (k : String) :
    Option (List (ℚ × ℚ)) :=
  match gs with
  | [] => none
  | (k1, v) :: rest => if k1 = k then some v else lookupGroup rest k

/-- `HashMap::get_mut` followed by a mutation: rewrite the entry at key `k`
(keys are unique, so only the first match can occur). -/
def modifyGroup (gs : List (String × List (ℚ × ℚ))) (k : String)
    (f : List (ℚ × ℚ) → List (ℚ × ℚ)) : List (String × List (ℚ × ℚ)) :=
  match gs with
  | [] => []
  | (k1, v) :: rest =>
      if k1 = k then (k1, f v) :: rest else (k1, v) :: modifyGroup rest k f

/-- The body of the `for (i, data) in new_data.iter().enumerate()` loop in
`Cpu::update_data_stats`, threading the accumulator
`(cpu_groups, max_from_new_data)`.  For an existing key the pair
`(points as f64, cpu_usage)` is appended — nothing is ever removed from the
deque (the source marks this with a TODO); for a new key a singleton deque
`[(0.0, cpu_usage)]` is inserted. -/
def cpuGroupStep (points : ℕ) (acc : List (String × List (ℚ × ℚ)) × ℚ)
    (data : CpuData) : List (String × List (ℚ × ℚ)) × ℚ :=
  let m := max acc.2 data.cpu_usage
  match lookupGroup acc.1 data.cpu_name with
  | some _ =>
      (modifyGroup acc.1 data.cpu_name
        (fun dq => dq ++ [((points : ℚ), data.cpu_usage)]), m)
  | none => (acc.1 ++ [(data.cpu_name, [((0 : ℚ), data.cpu_usage)])], m)

/-- `Cpu::update_data_stats`.  `points` is incremented first; the local
`max_x` starts at `f64::NEG_INFINITY` and is immediately maxed with
`points as f64`, hence equals `points`; the loop above runs over `new_data`
with `max_from_new_data` starting at `0.0`; finally `max_usage` and `max_x`
are maxed into the stored stats.  `min_x` is never written. -/
def Cpu.update_data_stats (s : CpuStats) (new_data : List CpuData) : CpuStats :=
  let points := s.points + 1
  let max_x : ℚ := (points : ℚ)
  let r := new_data.foldl (cpuGroupStep points) (s.cpu_groups, 0)
  { max_usage := max r.2 s.max_usage
    min_x := s.min_x
    max_x := max max_x s.max_x
    cpu_groups := r.1
    points := points }

/-- The `cpu_stats` field of `Cpu::new()`. -/
def Cpu.initStats : CpuStats :=
  { max_usage := 0, min_x := 0, max_x := 0, cpu_groups := [], points := 0 }

/-! ## src/tui/components/network.rs -/

/-- `NetworkData` from `src/data_services/network.rs`: `received` /
`transmitted` are the per-refresh byte deltas, `total_received` /
`total_transmitted` the provider's cumulative counters. -/
structure NetworkData where
  interface_name : String
  mac_address : String
  received : ℕ
  total_received : ℕ
  total_packets_received : ℕ
  transmitted : ℕ
  total_transmitted : ℕ
  total_packets_transmitted : ℕ
deriving DecidableEq

/-- The value-only window push used by `NetworkComponent::update_data_stats`:
if `len == 25` then `pop_front`; then `push_back(v)`.  The capacity literal
`25` is hard-coded in the source. -/
def netWindowPush (w : List ℕ) (v : ℕ) : List ℕ :=
  (if w.length = 25 then w.tail else w) ++ [v]

/-- `NetworkViewModel` from `src/tui/components/network.rs`. -/
structure NetworkViewModel where
  received : List ℕ
  transmitted : List ℕ
  total_transmitted : ℕ
  total_received : ℕ

/-- `NetworkComponent::update_data_stats`: push the sum of the per-interface
deltas into each window, then *overwrite* `total_transmitted` /
`total_received` with the sum over interfaces of the provider's cumulative
counters. -/
def NetworkViewModel.update_data_stats (vm : NetworkViewModel)
    (new_data : List NetworkData) : NetworkViewModel :=
  let received := new_data.map (fun c => c.received)
  let r := netWindowPush vm.received received.sum
  let transmitted := new_data.map (fun c => c.transmitted)
  let t := netWindowPush vm.transmitted transmitted.sum
  { received := r
    transmitted := t
    total_transmitted := (new_data.map (fun c => c.total_transmitted)).sum
    total_received := (new_data.map (fun c => c.total_received)).sum }

/-! ## src/data_services/processes.rs and src/data_services/disks.rs -/

/-- `ProcessData` from `src/data_services/processes.rs`. -/
structure ProcessData where
  pid : ℕ
  parent : Option ℕ
  name : String
  status : String
  cpu_usage : ℚ
deriving DecidableEq

/-- `DiskData` from `src/data_services/disks.rs`. -/
structure DiskData where
  name : String
  kind : String
  file_system : String
  total_space : ℕ
  available_space : ℕ
  is_removable : Bool
  mount_path : String
deriving DecidableEq

/-! ## src/data_services/data_collector.rs -/

/-- `DataCollected`: the Snapshot record, one optional field per subsystem. -/
structure DataCollected where
  cpu : Option (List CpuData)
  processes : Option (List ProcessData)
  disk : Option (List DiskData)
  networks : Option (List NetworkData)
deriving DecidableEq

/-- `DataCollector::update_info`: run one subsystem's extraction; `Ok` becomes
`some` (logged at debug), `Err` becomes `none` (logged at warning). -/
def update_info {α : Type} (res : Except String α) : Option α :=
  match res with
  | Except.ok info => some info
  | Except.error _ => none

/-- `DataCollector::update_data`, after the refresh step: the four subsystem
extractions are passed through `update_info` independently, each result
landing in its own field of `DataCollected`. -/
def update_data (rc : Except String (List CpuData))
    (rp : Except String (List ProcessData))
    (rd : Except String (List DiskData))
    (rn : Except String (List NetworkData)) : DataCollected :=
  { cpu := update_info rc
    processes := update_info rp
    disk := update_info rd
    networks := update_info rn }

/-! ## src/tui/ui.rs: events and the two producer loops -/

/-- `crossterm::event::KeyEventKind`. -/
inductive KeyEventKind where
  | press
  | release
  | repeated
deriving DecidableEq

/-- A raw `crossterm::event::Event`; key events carry their kind and an opaque
code, mouse events an opaque payload. -/
inductive CrosstermEvent where
  | key (kind : KeyEventKind) (code : ℕ)
  | mouse (m : ℕ)
  | resize (x y : ℕ)
  | focusLost
  | focusGained
  | paste (s : String)
deriving DecidableEq

/-- The result of `reader.next()` in the input loop: `Some(Ok(evt))`,
`Some(Err(_))`, or `None`. -/
inductive MaybeEvent where
  | someOk (e : CrosstermEvent)
  | someErr
  | nothing
deriving DecidableEq

/-- The `Event` enum from `src/tui/ui.rs`. -/
inductive Event where
  | Init
  | Quit
  | Error
  | Closed
  | Tick
  | Render
  | FocusGained
  | FocusLost
  | Paste (s : String)
  | Key (kind : KeyEventKind) (code : ℕ)
  | Mouse (m : ℕ)
  | Resize (x y : ℕ)
  | DataUpdate (d : DataCollected)
deriving DecidableEq

/-- The branch of the `tokio::select!` in the input loop that wins one
iteration. -/
inductive SelectBranch where
  | cancelled
  | input (m : MaybeEvent)
  | tick
  | render

/-- Outcome of one loop iteration: continue (with the events enqueued during
the iteration), break out of the loop, or panic the task. -/
inductive StepResult where
  | going (sent : List Event)
  | stopped
  | panicked
deriving DecidableEq

/-- `_event_tx.send(e).unwrap()`: when the receiver has been dropped, `send`
returns `Err` and `unwrap` panics; otherwise the event is enqueued and the
iteration continues. -/
def sendUnwrap (channelOpen : Bool) (e : Event) : StepResult :=
  if channelOpen then StepResult.going [e] else StepResult.panicked

/-- One iteration of the input-event loop of
`Tui::spawn_input_event_loop_task`, given which select branch won and whether
the channel is still open.  Key events are enqueued only when
`kind == KeyEventKind::Press`; every send goes through `unwrap`. -/
def inputLoopIter (channelOpen : Bool) (b : SelectBranch) : StepResult :=
  match b with
  | SelectBranch.cancelled => StepResult.stopped
  | SelectBranch.input m =>
    match m with
    | MaybeEvent.someOk e =>
      match e with
      | CrosstermEvent.key kind code =>
          if kind = KeyEventKind.press then
            sendUnwrap channelOpen (Event.Key kind code)
          else StepResult.going []
      | CrosstermEvent.mouse mm => sendUnwrap channelOpen (Event.Mouse mm)
      | CrosstermEvent.resize x y => sendUnwrap channelOpen (Event.Resize x y)
      | CrosstermEvent.focusLost => sendUnwrap channelOpen Event.FocusLost
      | CrosstermEvent.focusGained => sendUnwrap channelOpen Event.FocusGained
      | CrosstermEvent.paste s => sendUnwrap channelOpen (Event.Paste s)
    | MaybeEvent.someErr => sendUnwrap channelOpen Event.Error
    | MaybeEvent.nothing => StepResult.going []
  | SelectBranch.tick => sendUnwrap channelOpen Event.Tick
  | SelectBranch.render => sendUnwrap channelOpen Event.Render

/-- One iteration of `Tui::spawn_data_collection_task`: break if cancellation
is requested; otherwise collect and send the `DataUpdate`, breaking (silently)
if the send fails because the receiver is gone, and continuing into the sleep
otherwise. -/
def dataLoopIter (cancelRequested channelOpen : Bool) (snapshot : DataCollected) :
    StepResult :=
  if cancelRequested then StepResult.stopped
  else if channelOpen then StepResult.going [Event.DataUpdate snapshot]
  else StepResult.stopped

/-! ## src/tui/ui.rs: stop / abort_task -/

/-- `SLEEP_INTERVAL` in milliseconds. -/
def SLEEP_INTERVAL_MS : ℕ := 1

/-- `MAX_RETRIES`. -/
def MAX_RETRIES : ℕ := 10

/-- The error message built by `abort_task` on retry exhaustion:
`eyre!("Failed to abort task within {} milliseconds", max_retries * SLEEP_INTERVAL.as_millis())`. -/
def timeoutMsg (max_retries : ℕ) : String :=
  "Failed to abort task within " ++ toString (max_retries * SLEEP_INTERVAL_MS)
    ++ " milliseconds"

deriving instance DecidableEq for Except

/-- Observable trace of one `abort_task` call: its result, how many 1 ms
sleeps it performed, and the attempt index at which `task.abort()` was
issued, if it was. -/
structure AbortTrace where
  result : Except String Unit
  sleeps : ℕ
  abortedAt : Option ℕ
deriving DecidableEq

/-- The `for attempt in 0..max_retries` loop of `Tui::abort_task`.
`finished t` is what `task.is_finished()` returns when polled at attempt `t`;
`fuel` is the number of attempts left, `attempt` the current index. -/
def abortTaskAux (finished : ℕ → Bool) (max_retries : ℕ) :
    ℕ → ℕ → ℕ → Option ℕ → AbortTrace
  | 0, _, sleeps, abortedAt =>
      { result := Except.error (timeoutMsg max_retries)
        sleeps := sleeps
        abortedAt := abortedAt }
  | fuel + 1, attempt, sleeps, abortedAt =>
      if finished attempt then
        { result := Except.ok (), sleeps := sleeps, abortedAt := abortedAt }
      else
        abortTaskAux finished max_retries fuel (attempt + 1) (sleeps + 1)
          (if attempt = max_retries / 2 then some attempt else abortedAt)

/-- `Tui::abort_task(task, max_retries)`. -/
def abort_task (finished : ℕ → Bool) (max_retries : ℕ) : AbortTrace :=
  abortTaskAux finished max_retries max_retries 0 0 none

/-- Observable trace of `Tui::stop`: overall result, total sleeps performed,
and the abort attempts issued for each of the two tasks. -/
structure StopTrace where
  result : Except String Unit
  sleeps : ℕ
  inputAbortedAt : Option ℕ
  dataAbortedAt : Option ℕ
deriving DecidableEq

/-- `Tui::stop`: after `cancel()` (which only trips the token and does not
touch the trace), `abort_task` runs on the input task and then — unless the
first call already failed, in which case `?` returns early — on the data
collection task. -/
def Tui.stop (inputFinished dataFinished : ℕ → Bool) : StopTrace :=
  let t1 := abort_task inputFinished MAX_RETRIES
  match t1.result with
  | Except.error e =>
      { result := Except.error e, sleeps := t1.sleeps
        inputAbortedAt := t1.abortedAt, dataAbortedAt := none }
  | Except.ok _ =>
      let t2 := abort_task dataFinished MAX_RETRIES
      { result := t2.result, sleeps := t1.sleeps + t2.sleeps
        inputAbortedAt := t1.abortedAt, dataAbortedAt := t2.abortedAt }

/-! ## src/tui/action.rs (not present in the tree) and the component updates -/

/-- Modelled from the spec: the file `src/tui/action.rs` defining the `Action`
enum is not in the source tree; only its use sites are.  Every component's
`update` matches `Action::DataUpdate(data)` and reads one optional field of
the payload (`data.cpu`, `data.memory`, `data.networks`, `data.processes`),
and the spec (sections 3 and 4.3) describes the update event as carrying one
cycle's snapshot of optional per-subsystem readings.  The payload is therefore
modelled as a record of those four optional fields. -/
structure ActionData where
  cpu : Option (List CpuData)
  memory : Option MemoryData
  networks : Option (List NetworkData)
  processes : Option (List ProcessData)

/-- Modelled from the spec: the `Action` variants other than `DataUpdate` are
not matched by any component `update` and are collapsed into `other`. -/
inductive Action where
  | DataUpdate (data : ActionData)
  | other

/-- `impl Component for Cpu`, `fn update`: only `Action::DataUpdate` with a
present `cpu` field changes the stats. -/
def Cpu.update (s : CpuStats) (a : Action) : CpuStats :=
  match a with
  | Action.DataUpdate d =>
    match d.cpu with
    | some nd => Cpu.update_data_stats s nd
    | none => s
  | Action.other => s

/-- `impl Component for MemoryComponent`, `fn update`. -/
def MemoryComponent.update (vm : MemoryViewModel) (a : Action) : MemoryViewModel :=
  match a with
  | Action.DataUpdate d =>
    match d.memory with
    | some nd => vm.update_data_stats nd
    | none => vm
  | Action.other => vm

/-- `impl Component for NetworkComponent`, `fn update`. -/
def NetworkComponent.update (vm : NetworkViewModel) (a : Action) : NetworkViewModel :=
  match a with
  | Action.DataUpdate d =>
    match d.networks with
    | some nd => vm.update_data_stats nd
    | none => vm
  | Action.other => vm

/-- `impl Component for ProcessTable`, `fn update`: a present `processes`
field replaces `collected_data` wholesale. -/
def ProcessTable.update (pd : List ProcessData) (a : Action) : List ProcessData :=
  match a with
  | Action.DataUpdate d =>
    match d.processes with
    | some nd => nd
    | none => pd
  | Action.other => pd

/-! ## Concrete push sequences used by the claims -/

/-- `n` pushes of the value `v` into an initially empty memory-style window of
capacity `WINDOW_SIZE`. -/
def memPushN (v : F) : ℕ → List (ℚ × F)
  | 0 => []
  | n + 1 => windowPush WINDOW_SIZE (memPushN v n) v

/-- `n` pushes of the value `v` into an initially empty network window. -/
def netPushN (v : ℕ) : ℕ → List ℕ
  | 0 => []
  | n + 1 => netWindowPush (netPushN v n) v

/-- The single-core reading used to exercise the CPU window. -/
def cpuProbe : CpuData :=
  { cpu_name := "cpu0", vendor_id := "v", brand := "b", cpu_usage := 1 }

/-- `n` successive `Cpu::update_data_stats` calls, each with the one-core
reading `cpuProbe`, starting from the stats of `Cpu::new()`. -/
def cpuPump : ℕ → CpuStats
  | 0 => Cpu.initStats
  | n + 1 => Cpu.update_data_stats (cpuPump n) [cpuProbe]

/-- The list of positions `[0, 1, ..., c-1]` as rationals. -/
def posRange (c : ℕ) : List ℚ :=
  (List.range c).map (fun i => (i : ℚ))

/-- A memory window at capacity with contiguous positions `0..9`, used to
instantiate the reindex theorem. -/
def reindexProbe : List (ℚ × F) :=
  (List.range WINDOW_SIZE).map (fun i => ((i : ℚ), F.num 0))

end Powertop

namespace Powertop

set_option maxRecDepth 4000

/-! ## Helper lemmas about the window pushes and the CPU group map -/

/-- Length evolution of one memory-style window push: a push at capacity keeps
the length at the capacity, any other push grows it by one. -/
theorem windowPush_length {α : Type} (cap : ℕ) (hcap : 0 < cap)
    (w : List (ℚ × α)) (v : α) :
    (windowPush cap w v).length = if w.length = cap then cap else w.length + 1 := by
  by_cases h : w.length = cap
  · simp only [windowPush, h, if_pos, List.length_append, List.length_map,
      List.length_tail, List.length_singleton]
    omega
  · simp [windowPush, h]

/-- After `n` pushes into an initially empty memory window the length is
`min n WINDOW_SIZE`. -/
theorem memPushN_length (v : F) (n : ℕ) : (memPushN v n).length = min n WINDOW_SIZE := by
  induction n with
  | zero => simp [memPushN]
  | succ n ih =>
    rw [memPushN, windowPush_length WINDOW_SIZE (by norm_num [WINDOW_SIZE]), ih]
    simp only [WINDOW_SIZE]
    split <;> omega

/-- Length evolution of one network window push. -/
theorem netWindowPush_length (w : List ℕ) (v : ℕ) :
    (netWindowPush w v).length = if w.length = 25 then 25 else w.length + 1 := by
  by_cases h : w.length = 25
  · simp only [netWindowPush, h, if_pos, List.length_append, List.length_tail,
      List.length_singleton]
  · simp [netWindowPush, h]

/-- After `n` pushes into an initially empty network window the length is
`min n 25`. -/
theorem netPushN_length (v : ℕ) (n : ℕ) : (netPushN v n).length = min n 25 := by
  induction n with
  | zero => simp [netPushN]
  | succ n ih =>
    rw [netPushN, netWindowPush_length, ih]
    split <;> omega

/-- Looking up the modified key returns the modified deque. -/
theorem lookupGroup_modifyGroup (gs : List (String × List (ℚ × ℚ))) (k : String)
    (f : List (ℚ × ℚ) → List (ℚ × ℚ)) :
    lookupGroup (modifyGroup gs k f) k = (lookupGroup gs k).map f := by
  induction gs with
  | nil => rfl
  | cons e rest ih =>
    obtain ⟨k1, v⟩ := e
    by_cases h : k1 = k
    · subst h
      simp [modifyGroup, lookupGroup]
    · simp [modifyGroup, lookupGroup, h, ih]

/-- One `Cpu::update_data_stats` call with a single reading for an existing
core appends one pair to that core's deque and removes nothing. -/
theorem cpu_group_push (s : CpuStats) (l : List (ℚ × ℚ))
    (h : lookupGroup s.cpu_groups "cpu0" = some l) :
    lookupGroup (Cpu.update_data_stats s [cpuProbe]).cpu_groups "cpu0" =
      some (l ++ [((((s.points + 1 : ℕ)) : ℚ), (1 : ℚ))]) := by
  simp [Cpu.update_data_stats, cpuGroupStep, cpuProbe, h, lookupGroup_modifyGroup]

/-- After `n + 1` CPU updates the single core's deque holds `n + 1` pairs. -/
theorem cpuPump_group (n : ℕ) :
    ∃ l, lookupGroup (cpuPump (n + 1)).cpu_groups "cpu0" = some l ∧ l.length = n + 1 := by
  induction n with
  | zero => exact ⟨[(0, 1)], by decide, rfl⟩
  | succ n ih =>
    obtain ⟨l, hl, hlen⟩ := ih
    refine ⟨l ++ [(((((cpuPump (n + 1)).points + 1 : ℕ)) : ℚ), (1 : ℚ))], ?_, ?_⟩
    · exact cpu_group_push (cpuPump (n + 1)) l hl
    · simp [hlen]

/-- Early return of the `abort_task` polling loop when the status check
succeeds at the current attempt. -/
theorem abortTaskAux_finished (finished : ℕ → Bool) (mr fuel attempt sleeps : ℕ)
    (ab : Option ℕ) (hf : finished attempt = true) :
    abortTaskAux finished mr (fuel + 1) attempt sleeps ab =
      { result := Except.ok (), sleeps := sleeps, abortedAt := ab } := by
  simp [abortTaskAux, hf]

/-! ## Claim C1 -/

/-- Claim C1, counterexample: the CPU per-core window does not satisfy the
`min(N, C)` bound.  After 51 updates with one core the core's deque holds 51
pairs, while `min 51 MAX_DATA_POINTS = 50`: `Cpu::update_data_stats` never
evicts from the deque. -/
theorem cpu_window_exceeds_capacity :
    (lookupGroup (cpuPump 51).cpu_groups "cpu0").map List.length = some 51 ∧
    (51 : ℕ) ≠ min 51 MAX_DATA_POINTS := by decide

/-- Claim C1, amended: the memory/swap windows (capacity `WINDOW_SIZE = 10`)
and the network windows (capacity 25) have length `min N C` after any `N`
pushes; the CPU per-core window is never evicted, so after `N ≥ 1` updates
containing a given core its deque has length exactly `N`, unbounded by
`MAX_DATA_POINTS`. -/
theorem window_length_is_min :
    (∀ (v : F) (n : ℕ), (memPushN v n).length = min n WINDOW_SIZE) ∧
    (∀ (v : ℕ) (n : ℕ), (netPushN v n).length = min n 25) ∧
    (∀ n : ℕ, (lookupGroup (cpuPump (n + 1)).cpu_groups "cpu0").map List.length
        = some (n + 1)) := by
  refine ⟨memPushN_length, netPushN_length, ?_⟩
  intro n
  obtain ⟨l, hl, hlen⟩ := cpuPump_group n
  simp [hl, hlen]

/-! ## Claim C2 -/

/-- Claim C2, counterexample: the CPU per-core window performs neither the
eviction nor the reindexing once at capacity.  After the 51st update the
deque has 51 entries (nothing was evicted), its positions are not the
contiguous run `0..49`, and the original oldest pair `(0, 1)` is still at the
front. -/
theorem cpu_window_not_reindexed :
    (lookupGroup (cpuPump 50).cpu_groups "cpu0").map List.length = some 50 ∧
    (lookupGroup (cpuPump 51).cpu_groups "cpu0").map (fun l => l.map Prod.fst) ≠
      some (posRange MAX_DATA_POINTS) ∧
    (lookupGroup (cpuPump 51).cpu_groups "cpu0").map (fun l => l.head?) =
      some (some (0, 1)) := by decide

/-- Claim C2, amended: the reindex invariant holds for the memory/swap
windows: pushing `v` into a window whose positions are the contiguous run
`0..9` evicts the front pair, decrements every retained position by one, and
appends the new pair, so the positions are again `0..9`, the newest pair
`(9, v)` is last, and the oldest retained pair (the old second entry) now
sits at position `0`.  (The CPU window violates the invariant — see the
counterexample — and the network windows store plain values without
positions.) -/
theorem memory_window_reindex (w : List (ℚ × F)) (v : F)
    (h : w.map Prod.fst = posRange WINDOW_SIZE) :
    windowPush WINDOW_SIZE w v =
        w.tail.map (fun p => (p.1 - 1, p.2)) ++ [((9 : ℚ), v)] ∧
    (windowPush WINDOW_SIZE w v).map Prod.fst = posRange WINDOW_SIZE ∧
    (windowPush WINDOW_SIZE w v).getLast? = some ((9 : ℚ), v) ∧
    ∃ y, w.get? 1 = some (1, y) ∧ (windowPush WINDOW_SIZE w v).head? = some (0, y) := by
  have hpr : posRange WINDOW_SIZE = [0, 1, 2, 3, 4, 5, 6, 7, 8, 9] := by decide
  have hlen : w.length = WINDOW_SIZE := by
    have := congrArg List.length h
    simpa [posRange] using this
  have hpush : windowPush WINDOW_SIZE w v =
      w.tail.map (fun p => (p.1 - 1, p.2)) ++ [((9 : ℚ), v)] := by
    have htl : (w.tail.map (fun p : ℚ × F => (p.1 - 1, p.2))).length = 9 := by
      simp [hlen, WINDOW_SIZE]
    simp [windowPush, hlen, htl]
    norm_num [WINDOW_SIZE]
  obtain _ | ⟨a, t⟩ := w
  · simp [WINDOW_SIZE] at hlen
  rw [hpr] at h
  simp only [List.map_cons, List.cons.injEq] at h
  obtain ⟨ha, ht⟩ := h
  obtain _ | ⟨b, t2⟩ := t
  · simp at ht
  simp only [List.map_cons, List.cons.injEq] at ht
  obtain ⟨hb, ht2⟩ := ht
  refine ⟨hpush, ?_, ?_, ⟨b.2, ?_, ?_⟩⟩
  · rw [hpush, hpr]
    simp only [List.map_append, List.map_map, List.tail_cons]
    have hcomp : (List.map (Prod.fst ∘ fun p : ℚ × F => (p.1 - 1, p.2)) (b :: t2)) =
        ((b :: t2).map Prod.fst).map (fun q => q - 1) := by
      simp [List.map_map, Function.comp]
    rw [hcomp]
    rw [show (b :: t2).map Prod.fst = [1, 2, 3, 4, 5, 6, 7, 8, 9] from by
      simp [hb, ht2]]
    norm_num
  · rw [hpush]
    exact List.getLast?_concat _
  · simp [Prod.ext_iff, hb]
  · rw [hpush]
    simp [hb]

/-- Claim C2, witness: the reindex theorem applied to the concrete window
`reindexProbe` (positions `0..9`, all values `0`) and the pushed value `7`. -/
theorem memory_window_reindex_witness :
    windowPush WINDOW_SIZE reindexProbe (F.num 7) =
        reindexProbe.tail.map (fun p => (p.1 - 1, p.2)) ++ [((9 : ℚ), F.num 7)] ∧
    (windowPush WINDOW_SIZE reindexProbe (F.num 7)).map Prod.fst = posRange WINDOW_SIZE ∧
    (windowPush WINDOW_SIZE reindexProbe (F.num 7)).getLast? = some ((9 : ℚ), F.num 7) ∧
    ∃ y, reindexProbe.get? 1 = some (1, y) ∧
      (windowPush WINDOW_SIZE reindexProbe (F.num 7)).head? = some (0, y) :=
  memory_window_reindex reindexProbe (F.num 7) (by decide)

/-! ## Claim C3 -/

/-- Claim C3, counterexample: `total_received` is not an accumulating running
sum of the per-tick deltas.  Starting from a view model with
`total_received = 0`, one update whose single interface reports a delta of
`5` and a cumulative provider counter of `100` leaves `total_received = 100`,
not `0 + 5`: the field is overwritten with the sum of the interfaces'
cumulative counters. -/
theorem network_total_overwritten :
    (NetworkViewModel.update_data_stats ⟨[], [], 0, 0⟩
        [{ interface_name := "eth0", mac_address := "aa", received := 5,
           total_received := 100, total_packets_received := 1, transmitted := 7,
           total_transmitted := 200, total_packets_transmitted := 2 }]).total_received
      = 100 ∧
    (100 : ℕ) ≠ 0 + 5 := by decide

/-- Claim C3, amended: for every network update the entry pushed into each
window is the sum over the interface list of that tick's deltas, and
`total_received` / `total_transmitted` are set to the sum over the interface
list of the provider's cumulative counters (overwritten each tick, not
accumulated across ticks by the aggregator). -/
theorem network_update_sums (vm : NetworkViewModel) (data : List NetworkData) :
    ((vm.update_data_stats data).received).getLast?
        = some ((data.map (fun c => c.received)).sum) ∧
    ((vm.update_data_stats data).transmitted).getLast?
        = some ((data.map (fun c => c.transmitted)).sum) ∧
    (vm.update_data_stats data).total_received
        = (data.map (fun c => c.total_received)).sum ∧
    (vm.update_data_stats data).total_transmitted
        = (data.map (fun c => c.total_transmitted)).sum := by
  refine ⟨?_, ?_, rfl, rfl⟩ <;>
    simp [NetworkViewModel.update_data_stats, netWindowPush]

/-! ## Claim C4 -/

/-- Claim C4, counterexample: with `total_ram = 0` (and `free_ram = 0`) the
RAM percentage is not `0`: the code performs the division unguarded, so the
result is `0.0 / 0.0 = NaN`. -/
theorem usage_percentage_nan_on_zero_total :
    ((⟨0, 0, 0, 1⟩ : MemoryData).usage_percentages).1 = F.nan ∧
    F.nan ≠ F.num 0 := by decide

/-- Claim C4, amended: for `free ≤ total`, whenever the corresponding total
is positive the computed percentage is a finite value in `[0, 100]`; when the
total is `0` the computed value is NaN (the division `0.0 / 0.0` is performed,
not guarded). -/
theorem usage_percentages_bounds (m : MemoryData)
    (hr : m.free_ram ≤ m.total_ram) (hs : m.free_swap ≤ m.total_swap) :
    (0 < m.total_ram → ∃ q, m.usage_percentages.1 = F.num q ∧ 0 ≤ q ∧ q ≤ 100) ∧
    (m.total_ram = 0 → m.usage_percentages.1 = F.nan) ∧
    (0 < m.total_swap → ∃ q, m.usage_percentages.2 = F.num q ∧ 0 ≤ q ∧ q ≤ 100) ∧
    (m.total_swap = 0 → m.usage_percentages.2 = F.nan) := by
  have main : ∀ free total : ℕ, free ≤ total → 0 < total →
      ∃ q, (f64Div ((total - free : ℕ) : ℚ) (total : ℚ)).mulConst 100 = F.num q ∧
        0 ≤ q ∧ q ≤ 100 := by
    intro free total hft h0
    have hne : ((total : ℚ)) ≠ 0 := Nat.cast_ne_zero.mpr h0.ne'
    refine ⟨((total - free : ℕ) : ℚ) / (total : ℚ) * 100, ?_, ?_, ?_⟩
    · simp [f64Div, F.mulConst, hne]
    · positivity
    · have h1 : ((total - free : ℕ) : ℚ) ≤ (total : ℚ) := by
        exact_mod_cast Nat.sub_le total free
      have h2 : ((total - free : ℕ) : ℚ) / (total : ℚ) ≤ 1 :=
        div_le_one_of_le₀ h1 (by positivity)
      nlinarith
  refine ⟨?_, ?_, ?_, ?_⟩
  · intro h0
    exact main m.free_ram m.total_ram hr h0
  · intro h0
    simp [MemoryData.usage_percentages, h0, f64Div, F.mulConst]
  · intro h0
    exact main m.free_swap m.total_swap hs h0
  · intro h0
    simp [MemoryData.usage_percentages, h0, f64Div, F.mulConst]

/-- Claim C4, witness: the bounds theorem applied to the concrete reading
`free_ram = 2, total_ram = 4, free_swap = 0, total_swap = 0` (a positive RAM
total and a zero swap total). -/
theorem usage_percentages_bounds_witness :
    (0 < (⟨2, 4, 0, 0⟩ : MemoryData).total_ram →
      ∃ q, (⟨2, 4, 0, 0⟩ : MemoryData).usage_percentages.1 = F.num q ∧
        0 ≤ q ∧ q ≤ 100) ∧
    ((⟨2, 4, 0, 0⟩ : MemoryData).total_ram = 0 →
      (⟨2, 4, 0, 0⟩ : MemoryData).usage_percentages.1 = F.nan) ∧
    (0 < (⟨2, 4, 0, 0⟩ : MemoryData).total_swap →
      ∃ q, (⟨2, 4, 0, 0⟩ : MemoryData).usage_percentages.2 = F.num q ∧
        0 ≤ q ∧ q ≤ 100) ∧
    ((⟨2, 4, 0, 0⟩ : MemoryData).total_swap = 0 →
      (⟨2, 4, 0, 0⟩ : MemoryData).usage_percentages.2 = F.nan) :=
  usage_percentages_bounds ⟨2, 4, 0, 0⟩ (by decide) (by decide)

/-! ## Claim C5 -/

/-- Claim C5, counterexample: when the consumer has been dropped and the tick
timer fires, the Input Loop does not terminate silently — the `unwrap` on the
failed `send` panics the task. -/
theorem input_loop_panics_on_closed_channel :
    inputLoopIter false SelectBranch.tick = StepResult.panicked ∧
    StepResult.panicked ≠ StepResult.stopped := by decide

/-- Claim C5, amended: when an enqueue fails because the consumer has been
dropped, only the Data Collection Loop terminates its loop silently; the
Input Loop calls `unwrap()` on every send and therefore panics on its next
enqueue (tick, render, decoded input, or decode error alike). -/
theorem channel_closed_producer_behavior :
    (∀ d : DataCollected, dataLoopIter false false d = StepResult.stopped) ∧
    inputLoopIter false SelectBranch.tick = StepResult.panicked ∧
    inputLoopIter false SelectBranch.render = StepResult.panicked ∧
    inputLoopIter false (SelectBranch.input MaybeEvent.someErr) = StepResult.panicked ∧
    (∀ c : ℕ, inputLoopIter false (SelectBranch.input (MaybeEvent.someOk
        (CrosstermEvent.key KeyEventKind.press c))) = StepResult.panicked) :=
  ⟨fun _ => rfl, rfl, rfl, rfl, fun _ => rfl⟩

/-! ## Claim C6 -/

/-- Claim C6: for a task that never reaches the finished state, `abort_task`
with the full retry budget issues the forced abort exactly at attempt
`MAX_RETRIES / 2 = 5`, performs one sleep of `SLEEP_INTERVAL_MS = 1`
millisecond per attempt (`MAX_RETRIES` sleeps in total), and returns the
timeout error whose message names the elapsed bound
`MAX_RETRIES * SLEEP_INTERVAL_MS = 10` milliseconds. -/
theorem abort_task_escalation (finished : ℕ → Bool) (h : ∀ t, finished t = false) :
    abort_task finished MAX_RETRIES =
      { result := Except.error (timeoutMsg MAX_RETRIES),
        sleeps := MAX_RETRIES, abortedAt := some (MAX_RETRIES / 2) } ∧
    timeoutMsg MAX_RETRIES = "Failed to abort task within 10 milliseconds" ∧
    SLEEP_INTERVAL_MS = 1 := by
  have hf : finished = fun _ => false := funext h
  subst hf
  exact ⟨by decide, rfl, rfl⟩

/-- Claim C6, witness: the escalation theorem applied to the constantly
unfinished task `fun _ => false`. -/
theorem abort_task_escalation_witness :
    abort_task (fun _ => false) MAX_RETRIES =
      { result := Except.error (timeoutMsg MAX_RETRIES),
        sleeps := MAX_RETRIES, abortedAt := some (MAX_RETRIES / 2) } ∧
    timeoutMsg MAX_RETRIES = "Failed to abort task within 10 milliseconds" ∧
    SLEEP_INTERVAL_MS = 1 :=
  abort_task_escalation (fun _ => false) (fun _ => rfl)

/-! ## Claim C7 -/

/-- Claim C7: the four subsystem extractions are handled independently by
`DataCollector::update_data`.  Whichever single subsystem fails, its field is
`none` while every succeeding subsystem's field carries its payload; even
when all four fail the cycle still completes with an all-absent Snapshot
(no failure aborts the cycle). -/
theorem update_data_isolation (ec ep ed en : String)
    (c : List CpuData) (p : List ProcessData) (d : List DiskData)
    (n : List NetworkData) :
    update_data (Except.error ec) (Except.ok p) (Except.ok d) (Except.ok n) =
      { cpu := none, processes := some p, disk := some d, networks := some n } ∧
    update_data (Except.ok c) (Except.error ep) (Except.ok d) (Except.ok n) =
      { cpu := some c, processes := none, disk := some d, networks := some n } ∧
    update_data (Except.ok c) (Except.ok p) (Except.error ed) (Except.ok n) =
      { cpu := some c, processes := some p, disk := none, networks := some n } ∧
    update_data (Except.ok c) (Except.ok p) (Except.ok d) (Except.error en) =
      { cpu := some c, processes := some p, disk := some d, networks := none } ∧
    update_data (Except.error ec) (Except.error ep) (Except.error ed)
        (Except.error en) =
      { cpu := none, processes := none, disk := none, networks := none } :=
  ⟨rfl, rfl, rfl, rfl, rfl⟩

/-! ## Claim C8 -/

/-- Claim C8, counterexample: a key event with kind `Release` is successfully
decoded but enqueues no event at all — the loop only forwards key events
whose kind is `Press`, so "exactly one variant per decoded event" fails. -/
theorem key_release_enqueues_nothing :
    inputLoopIter true (SelectBranch.input (MaybeEvent.someOk
        (CrosstermEvent.key KeyEventKind.release 0))) = StepResult.going [] ∧
    ([] : List Event).length ≠ 1 := by decide

/-- Claim C8, amended: with the consumer alive, every successfully decoded
raw event enqueues exactly one corresponding `Event` variant — except key
events whose kind is `Release` or `Repeat`, which enqueue nothing — and a
decode failure enqueues `Error` and the loop continues. -/
theorem input_decode_enqueues :
    (∀ c, inputLoopIter true (SelectBranch.input (MaybeEvent.someOk
        (CrosstermEvent.key KeyEventKind.press c)))
      = StepResult.going [Event.Key KeyEventKind.press c]) ∧
    (∀ c, inputLoopIter true (SelectBranch.input (MaybeEvent.someOk
        (CrosstermEvent.key KeyEventKind.release c))) = StepResult.going []) ∧
    (∀ c, inputLoopIter true (SelectBranch.input (MaybeEvent.someOk
        (CrosstermEvent.key KeyEventKind.repeated c))) = StepResult.going []) ∧
    (∀ m, inputLoopIter true (SelectBranch.input (MaybeEvent.someOk
        (CrosstermEvent.mouse m))) = StepResult.going [Event.Mouse m]) ∧
    (∀ x y, inputLoopIter true (SelectBranch.input (MaybeEvent.someOk
        (CrosstermEvent.resize x y))) = StepResult.going [Event.Resize x y]) ∧
    inputLoopIter true (SelectBranch.input (MaybeEvent.someOk
        CrosstermEvent.focusLost)) = StepResult.going [Event.FocusLost] ∧
    inputLoopIter true (SelectBranch.input (MaybeEvent.someOk
        CrosstermEvent.focusGained)) = StepResult.going [Event.FocusGained] ∧
    (∀ s, inputLoopIter true (SelectBranch.input (MaybeEvent.someOk
        (CrosstermEvent.paste s))) = StepResult.going [Event.Paste s]) ∧
    inputLoopIter true (SelectBranch.input MaybeEvent.someErr)
      = StepResult.going [Event.Error] :=
  ⟨fun _ => rfl, fun _ => rfl, fun _ => rfl, fun _ => rfl, fun _ _ => rfl,
    rfl, rfl, fun _ => rfl, rfl⟩

/-! ## Claim C9 -/

/-- Claim C9: when both background tasks are already finished (their status
check returns true at the very first attempt), `stop()` succeeds immediately:
no sleep is performed and no forced abort is issued for either task. -/
theorem stop_finished_immediate (f1 f2 : ℕ → Bool)
    (h1 : f1 0 = true) (h2 : f2 0 = true) :
    Tui.stop f1 f2 =
      { result := Except.ok (), sleeps := 0,
        inputAbortedAt := none, dataAbortedAt := none } := by
  have e1 : abort_task f1 MAX_RETRIES =
      { result := Except.ok (), sleeps := 0, abortedAt := none } := by
    show abortTaskAux f1 MAX_RETRIES (9 + 1) 0 0 none = _
    exact abortTaskAux_finished f1 MAX_RETRIES 9 0 0 none h1
  have e2 : abort_task f2 MAX_RETRIES =
      { result := Except.ok (), sleeps := 0, abortedAt := none } := by
    show abortTaskAux f2 MAX_RETRIES (9 + 1) 0 0 none = _
    exact abortTaskAux_finished f2 MAX_RETRIES 9 0 0 none h2
  simp [Tui.stop, e1, e2]

/-- Claim C9, witness: `stop` on two tasks that are finished from the start. -/
theorem stop_finished_immediate_witness :
    Tui.stop (fun _ => true) (fun _ => true) =
      { result := Except.ok (), sleeps := 0,
        inputAbortedAt := none, dataAbortedAt := none } :=
  stop_finished_immediate (fun _ => true) (fun _ => true) rfl rfl

/-! ## Claim C10 -/

/-- Claim C10: a `DataUpdate` action whose corresponding snapshot field is
absent leaves each aggregator component's state completely unchanged — no
window push, no counter update, no reindexing — whatever the other fields of
the payload hold. -/
theorem absent_snapshot_field_no_change (s : CpuStats) (mv : MemoryViewModel)
    (nv : NetworkViewModel) (pd : List ProcessData)
    (oc : Option (List CpuData)) (om : Option MemoryData)
    (onw : Option (List NetworkData)) (op : Option (List ProcessData)) :
    Cpu.update s (Action.DataUpdate ⟨none, om, onw, op⟩) = s ∧
    MemoryComponent.update mv (Action.DataUpdate ⟨oc, none, onw, op⟩) = mv ∧
    NetworkComponent.update nv (Action.DataUpdate ⟨oc, om, none, op⟩) = nv ∧
    ProcessTable.update pd (Action.DataUpdate ⟨oc, om, onw, none⟩) = pd :=
  ⟨rfl, rfl, rfl, rfl⟩

end Powertop
